import Mathlib

/-!
Verification development for vertext.h, a single-header C library that
generates textured quads for text rendering.  The definitions below are a
shallow embedding of the implementation in src/vertext.h: C floats are
modelled as exact rationals, C ints as Int or Nat, the fixed global arrays
as total functions from Nat recording every store that the C code performs.
The compile-time configuration macros keep their default values from the
header (ASCII range 32..126, 800 characters of buffer, atlas width 400,
padding 1).
-/

/-- Default value of the VTXT_ASCII_FROM macro (the space character). -/
def VTXT_ASCII_FROM : Int := 32

/-- Default value of the VTXT_ASCII_TO macro (the tilde character). -/
def VTXT_ASCII_TO : Int := 126

/-- Default value of the VTXT_MAX_CHAR_IN_BUFFER macro. -/
def VTXT_MAX_CHAR_IN_BUFFER : Nat := 800

/-- Value of the VTXT_DESIRED_ATLAS_WIDTH macro. -/
def VTXT_DESIRED_ATLAS_WIDTH : Nat := 400

/-- Value of the VTXT_ATLAS_PAD_X macro. -/
def VTXT_ATLAS_PAD_X : Nat := 1

/-- Value of the VTXT_ATLAS_PAD_Y macro. -/
def VTXT_ATLAS_PAD_Y : Nat := 1

/-- Flag bit VTXT_CREATE_INDEX_BUFFER = 1 << 0. -/
def VTXT_CREATE_INDEX_BUFFER : Nat := 1

/-- Flag bit VTXT_USE_CLIPSPACE_COORDS = 1 << 1. -/
def VTXT_USE_CLIPSPACE_COORDS : Nat := 2

/-- Flag bit VTXT_NEWLINE_ABOVE = 1 << 2. -/
def VTXT_NEWLINE_ABOVE : Nat := 4

/-- Flag bit VTXT_FLIP_Y = 1 << 3. -/
def VTXT_FLIP_Y : Nat := 8

/-- The C cast `(int) f` truncates a float toward zero; on exact rationals
this is the floor for nonnegative values and the ceiling for negative ones. -/
def truncToInt (q : ℚ) : Int := if 0 ≤ q then ⌊q⌋ else ⌈q⌉

/-- A sequence of consecutive stores `f[i] = l0; f[i+1] = l1; ...` into an
array modelled as a total function. -/
def writeSeq {α : Type} (f : Nat → α) (i : Nat) : List α → (Nat → α)
  | [] => f
  | v :: rest => writeSeq (Function.update f i v) (i + 1) rest

/-- One glyph record of the `vtxt_glyph` struct (the codepoint field is the
array index and is omitted). -/
structure vtxt_glyph where
  width : ℚ
  height : ℚ
  advance : ℚ
  offset_x : ℚ
  offset_y : ℚ
  min_u : ℚ
  min_v : ℚ
  max_u : ℚ
  max_v : ℚ

/-- The `vtxt_font` struct restricted to the fields the appending and
measuring code reads; `glyphs` is the glyph array indexed by
`codepoint - VTXT_ASCII_FROM` as in the C code. -/
structure vtxt_font where
  font_height_px : Int
  ascender : ℚ
  descender : ℚ
  linegap : ℚ
  glyphs : Int → vtxt_glyph

/-- The mutable globals of vertext.h: `_vtxt_vertex_buffer`,
`_vtxt_vertex_count`, `_vtxt_index_buffer`, `_vtxt_index_count`,
`_vtxt_config`, `_vtxt_linegap_offset`, `_vtxt_cursor_x`, `_vtxt_cursor_y`,
`_vtxt_screen_w_for_clipspace`, `_vtxt_screen_h_for_clipspace`. -/
structure VtxtState where
  vertex_buffer : Nat → ℚ
  vertex_count : Nat
  index_buffer : Nat → Nat
  index_count : Nat
  config : Nat
  linegap_offset : ℚ
  cursor_x : Int
  cursor_y : Int
  screen_w : Int
  screen_h : Int

/-- `vtxt_clear_buffer`: only the counts are reset, the array contents are
kept. -/
def vtxt_clear_buffer (s : VtxtState) : VtxtState :=
  { s with vertex_count := 0, index_count := 0 }

/-- `vtxt_setflags`: installs the new flag word, and clears the buffer
whenever the VTXT_CREATE_INDEX_BUFFER bit changed. -/
def vtxt_setflags (newconfig : Nat) (s : VtxtState) : VtxtState :=
  let oldconfig := s.config
  let s1 := { s with config := newconfig }
  if oldconfig &&& VTXT_CREATE_INDEX_BUFFER ≠ newconfig &&& VTXT_CREATE_INDEX_BUFFER then
    vtxt_clear_buffer s1
  else
    s1

/-- The clip-space x transform applied at line 679 of vertext.h:
`left = ((left / _vtxt_screen_w_for_clipspace) * 2.f) - 1.f`. -/
def vtxt_clip_x (screen_w : Int) (x : ℚ) : ℚ := x / (screen_w : ℚ) * 2 - 1

/-- The clip-space y transform applied at line 677 of vertext.h:
`top = (1.f - ((top / _vtxt_screen_h_for_clipspace) * 2.f))`. -/
def vtxt_clip_y (screen_h : Int) (y : ℚ) : ℚ := 1 - y / (screen_h : ℚ) * 2

/-- `__private_vtxt_append_glyph`: assembles one quad for `in_glyph` and
appends it to the vertex (and possibly index) buffer, then advances the
cursor by the truncated scaled advance.  Returns the state unchanged when
the codepoint is outside the collected range or when the capacity check
`VTXT_MAX_CHAR_IN_BUFFER * 6 < _vtxt_vertex_count + 6` fires. -/
def __private_vtxt_append_glyph (in_glyph : Int) (font : vtxt_font)
    (text_height_px : Int) (x_offset_from_cursor : ℚ) (s : VtxtState) : VtxtState :=
  if in_glyph < VTXT_ASCII_FROM ∨ VTXT_ASCII_TO < in_glyph then s
  else if VTXT_MAX_CHAR_IN_BUFFER * 6 < s.vertex_count + 6 then s
  else
    let scale : ℚ := (text_height_px : ℚ) / (font.font_height_px : ℚ)
    let g := font.glyphs (in_glyph - VTXT_ASCII_FROM)
    let advance := g.advance * scale
    let width := g.width * scale
    let height := g.height * scale
    let offset_x := g.offset_x * scale
    let offset_y := g.offset_y * scale
    let top0 : ℚ :=
      if s.config &&& VTXT_FLIP_Y ≠ 0 then (s.cursor_y : ℚ) - offset_y
      else (s.cursor_y : ℚ) + offset_y
    let bot0 : ℚ :=
      if s.config &&& VTXT_FLIP_Y ≠ 0 then (s.cursor_y : ℚ) - offset_y - height
      else (s.cursor_y : ℚ) + offset_y + height
    let left0 : ℚ := (s.cursor_x : ℚ) + offset_x + x_offset_from_cursor
    let right0 : ℚ := (s.cursor_x : ℚ) + offset_x + width + x_offset_from_cursor
    let top : ℚ := if s.config &&& VTXT_USE_CLIPSPACE_COORDS ≠ 0 then vtxt_clip_y s.screen_h top0 else top0
    let bot : ℚ := if s.config &&& VTXT_USE_CLIPSPACE_COORDS ≠ 0 then vtxt_clip_y s.screen_h bot0 else bot0
    let left : ℚ := if s.config &&& VTXT_USE_CLIPSPACE_COORDS ≠ 0 then vtxt_clip_x s.screen_w left0 else left0
    let right : ℚ := if s.config &&& VTXT_USE_CLIPSPACE_COORDS ≠ 0 then vtxt_clip_x s.screen_w right0 else right0
    if s.config &&& VTXT_CREATE_INDEX_BUFFER ≠ 0 then
      { s with
        vertex_buffer := writeSeq s.vertex_buffer (s.vertex_count * 4)
          [left, bot, g.min_u, g.min_v,
           left, top, g.min_u, g.max_v,
           right, top, g.max_u, g.max_v,
           right, bot, g.max_u, g.min_v],
        index_buffer := writeSeq s.index_buffer s.index_count
          [s.vertex_count, s.vertex_count + 2, s.vertex_count + 1,
           s.vertex_count, s.vertex_count + 3, s.vertex_count + 2],
        vertex_count := s.vertex_count + 4,
        index_count := s.index_count + 6,
        cursor_x := s.cursor_x + truncToInt advance }
    else
      { s with
        vertex_buffer := writeSeq s.vertex_buffer (s.vertex_count * 4)
          [left, bot, g.min_u, g.min_v,
           right, top, g.max_u, g.max_v,
           left, top, g.min_u, g.max_v,
           right, bot, g.max_u, g.min_v,
           right, top, g.max_u, g.max_v,
           left, bot, g.min_u, g.min_v],
        vertex_count := s.vertex_count + 6,
        cursor_x := s.cursor_x + truncToInt advance }

/-- `vtxt_append_glyph` forwards to the private helper with offset 0. -/
def vtxt_append_glyph (in_glyph : Int) (font : vtxt_font) (text_height_px : Int)
    (s : VtxtState) : VtxtState :=
  __private_vtxt_append_glyph in_glyph font text_height_px 0 s

/-- The pre-scan of `vtxt_append_line_centered` (and `_align_right`): the sum
of the scaled advances of the characters of one line, accumulated left to
right as the C loop does. -/
def vtxt_line_length (font : vtxt_font) (text_height_px : Int) (text : List Int) : ℚ :=
  text.foldl
    (fun acc c =>
      acc + (font.glyphs (c - VTXT_ASCII_FROM)).advance
              * ((text_height_px : ℚ) / (font.font_height_px : ℚ)))
    0

/-- The emission loop shared by the line-appending functions: for each
character, break out when the capacity check fires, otherwise append the
glyph with the constant x offset `xoff`. -/
def vtxt_line_loop (font : vtxt_font) (text_height_px : Int) (xoff : ℚ) :
    List Int → VtxtState → VtxtState
  | [], s => s
  | c :: rest, s =>
    if VTXT_MAX_CHAR_IN_BUFFER * 6 < s.vertex_count + 6 then s
    else vtxt_line_loop font text_height_px xoff rest
           (__private_vtxt_append_glyph c font text_height_px xoff s)

/-- `vtxt_append_line_centered` restricted to a single line (the text list
holds the characters before the terminating NUL or newline, exactly the
contents of the C function's `line_buffer`): pre-scan the line length, then
re-emit every glyph with the constant offset `-line_length/2`. -/
def vtxt_append_line_centered (font : vtxt_font) (text_height_px : Int)
    (text : List Int) (s : VtxtState) : VtxtState :=
  vtxt_line_loop font text_height_px (-(vtxt_line_length font text_height_px text / 2)) text s

/-- The total pen movement of a run of characters: the sum of the
`(int) glyph.advance` cursor increments performed by the append calls. -/
def vtxt_pen_advance (font : vtxt_font) (text_height_px : Int) (text : List Int) : Int :=
  (text.map
    (fun c => truncToInt ((font.glyphs (c - VTXT_ASCII_FROM)).advance
                * ((text_height_px : ℚ) / (font.font_height_px : ℚ))))).sum

/-- Local state of `vtxt_get_text_bounding_box_info`: the text pointer
offset and the three accumulators. -/
structure BBoxState where
  pos : Nat
  wSumLargestSoFar : ℚ
  wSumCurrent : ℚ
  hSum : ℚ

/-- Dereference of the text pointer at offset `pos`; positions past the end
of the list read the terminating NUL. -/
def charAt (text : List Int) (pos : Nat) : Int := (text.get? pos).getD 0

/-- One iteration of the while loop of `vtxt_get_text_bounding_box_info`.
For a non-newline character outside the collected range the C body executes
`continue`, which jumps back to the loop condition WITHOUT running the
`++text` at the end of the body, so the state is returned unchanged. -/
def vtxt_bbox_step (font : vtxt_font) (text_height_px : Int) (linegap_offset : ℚ)
    (text : List Int) (s : BBoxState) : BBoxState :=
  let c := charAt text s.pos
  if c ≠ 10 then
    if c < VTXT_ASCII_FROM ∨ VTXT_ASCII_TO < c then
      s
    else
      let isLast := charAt text (s.pos + 1) = 0 ∨ charAt text (s.pos + 1) = 10
      let scale : ℚ := (text_height_px : ℚ) / (font.font_height_px : ℚ)
      let g := font.glyphs (c - VTXT_ASCII_FROM)
      let wCur := s.wSumCurrent +
        (if isLast then g.offset_x * scale + g.width * scale else g.advance * scale)
      if isLast then
        let wLargest := if s.wSumLargestSoFar < wCur then wCur else s.wSumLargestSoFar
        let linegap := font.linegap + linegap_offset
        let heightOfThisLine := (font.ascender - font.descender + linegap) * scale
        { pos := s.pos + 1, wSumLargestSoFar := wLargest, wSumCurrent := wCur,
          hSum := s.hSum + heightOfThisLine }
      else
        { s with pos := s.pos + 1, wSumCurrent := wCur }
  else
    { s with pos := s.pos + 1 }

/-- Fuel-bounded execution of the `vtxt_get_text_bounding_box_info` loop:
`some (width, height)` when the loop reaches the terminating NUL within
`fuel` iterations, `none` when it is still running after `fuel` iterations. -/
def vtxt_bbox_run (font : vtxt_font) (text_height_px : Int) (linegap_offset : ℚ)
    (text : List Int) : Nat → BBoxState → Option (ℚ × ℚ)
  | 0, _ => none
  | fuel + 1, s =>
    if charAt text s.pos = 0 then some (s.wSumLargestSoFar, s.hSum)
    else vtxt_bbox_run font text_height_px linegap_offset text fuel
           (vtxt_bbox_step font text_height_px linegap_offset text s)

/-- The position and size at which `vtxt_init_font` blits one glyph bitmap
into the atlas. -/
structure PackEntry where
  x : Nat
  y : Nat
  w : Nat
  h : Nat
deriving DecidableEq

/-- The greedy shelf packer of `vtxt_init_font` (lines 575-600): glyph
bitmaps are given as (width, height) pairs; `atlas_x`/`atlas_y` is the atlas
bitmap cursor; when a glyph no longer fits in the current row the cursor
wraps to the start of the next row of height `rowH = tallest + VTXT_ATLAS_PAD_Y`.
Each returned entry is the rectangle into which the glyph bitmap is blitted. -/
def vtxt_pack_glyphs (W rowH : Nat) : List (Nat × Nat) → Nat → Nat → List PackEntry
  | [], _, _ => []
  | g :: rest, atlas_x, atlas_y =>
    if W < atlas_x + g.1 then
      ⟨0, atlas_y + rowH, g.1, g.2⟩ ::
        vtxt_pack_glyphs W rowH rest (g.1 + VTXT_ATLAS_PAD_X) (atlas_y + rowH)
    else
      ⟨atlas_x, atlas_y, g.1, g.2⟩ ::
        vtxt_pack_glyphs W rowH rest (atlas_x + g.1 + VTXT_ATLAS_PAD_X) atlas_y

/-- The `tallest_glyph_height` accumulation of the glyph-loading loop. -/
def vtxt_tallest_glyph_height : List (Nat × Nat) → Nat → Nat
  | [], t => t
  | g :: rest, t => vtxt_tallest_glyph_height rest (if t < g.2 then g.2 else t)

/-- The `aggregate_glyph_width` accumulation of the glyph-loading loop:
every glyph contributes its width plus VTXT_ATLAS_PAD_X. -/
def vtxt_aggregate_glyph_width : List (Nat × Nat) → Nat → Nat
  | [], a => a
  | g :: rest, a => vtxt_aggregate_glyph_width rest (a + g.1 + VTXT_ATLAS_PAD_X)

/-- The `_vtxt_ceil((float)a / (float)b)` computation on natural inputs.
For the magnitudes involved (both operands far below 2^24) the float
division is exact enough that the macro returns the exact rational ceiling,
which for naturals is this function. -/
def ceilDivNat (a b : Nat) : Nat := if a % b = 0 then a / b else a / b + 1

/-- `desired_atlas_height` as computed at line 564 of vertext.h. -/
def vtxt_desired_atlas_height (gs : List (Nat × Nat)) : Nat :=
  (vtxt_tallest_glyph_height gs 0 + VTXT_ATLAS_PAD_Y)
    * ceilDivNat (vtxt_aggregate_glyph_width gs 0) VTXT_DESIRED_ATLAS_WIDTH

/-- The normalized texture-coordinate rectangle recorded for a glyph at
lines 592-595 of vertext.h. -/
structure GlyphUV where
  min_u : ℚ
  min_v : ℚ
  max_u : ℚ
  max_v : ℚ
deriving DecidableEq

/-- Texture coordinates of a packed glyph: its rectangle normalized by the
atlas width and height. -/
def vtxt_entry_uv (W H : Nat) (e : PackEntry) : GlyphUV :=
  ⟨(e.x : ℚ) / (W : ℚ), (e.y : ℚ) / (H : ℚ),
   ((e.x + e.w : Nat) : ℚ) / (W : ℚ), ((e.y + e.h : Nat) : ℚ) / (H : ℚ)⟩

/-- Two texture rectangles overlap when their interiors intersect. -/
def uvOverlap (a b : GlyphUV) : Prop :=
  a.min_u < b.max_u ∧ b.min_u < a.max_u ∧ a.min_v < b.max_v ∧ b.min_v < a.max_v

/-- One vertex (x, y, u, v) read back from the flat vertex buffer. -/
structure QuadVertex where
  x : ℚ
  y : ℚ
  u : ℚ
  v : ℚ
deriving DecidableEq

/-- Vertex number `i` of the vertex buffer (stride 4). -/
def readVertex (s : VtxtState) (i : Nat) : QuadVertex :=
  ⟨s.vertex_buffer (i * 4), s.vertex_buffer (i * 4 + 1),
   s.vertex_buffer (i * 4 + 2), s.vertex_buffer (i * 4 + 3)⟩

/-- Cyclic rotation of a triangle, preserving its winding. -/
def rotateTriangle (t : QuadVertex × QuadVertex × QuadVertex) :
    QuadVertex × QuadVertex × QuadVertex :=
  (t.2.1, t.2.2, t.1)

/-- Two triangles are equal up to cyclic rotation of their vertices (same
winding). -/
def cyclicEqTriangle (t1 t2 : QuadVertex × QuadVertex × QuadVertex) : Prop :=
  t2 = t1 ∨ t2 = rotateTriangle t1 ∨ t2 = rotateTriangle (rotateTriangle t1)

/-- A library state with cleared buffers, for exercising the appending
functions from a known configuration. -/
def clearedState (config : Nat) (cx cy sw sh : Int) : VtxtState :=
  ⟨fun _ => 0, 0, fun _ => 0, 0, config, 0, cx, cy, sw, sh⟩

/-- A font whose glyphs all have zero metrics, at base height 10. -/
def font_zero : vtxt_font :=
  ⟨10, 0, 0, 0, fun _ => ⟨0, 0, 0, 0, 0, 0, 0, 0, 0⟩⟩

/-- A font at base height 10 whose glyphs have width 2, height 3 and
advance 10 with zero bearings. -/
def font_adv10 : vtxt_font :=
  ⟨10, 0, 0, 0, fun _ => ⟨2, 3, 10, 0, 0, 0, 0, 0, 0⟩⟩

/-- A font at base height 10 whose glyphs have advance 7 and zero size. -/
def font_adv7 : vtxt_font :=
  ⟨10, 0, 0, 0, fun _ => ⟨0, 0, 7, 0, 0, 0, 0, 0, 0⟩⟩

/-- The default cleared state in screen-space non-indexed mode with the
cursor moved to (100, 100). -/
def s0c : VtxtState := clearedState 0 100 100 800 600

/-- The cleared state in indexed mode (VTXT_CREATE_INDEX_BUFFER set). -/
def s0idx : VtxtState := clearedState VTXT_CREATE_INDEX_BUFFER 0 100 800 600

/-- The library state after appending `n` copies of the glyph with
codepoint 65 in indexed mode. -/
def idxIter (n : Nat) : VtxtState :=
  (__private_vtxt_append_glyph 65 font_zero 10 0)^[n] s0idx

/-- Glyph bitmap sizes (95 glyphs, matching the default range): three
bitmaps of width 201 and height 1 followed by 92 empty-width bitmaps of
height 1.  A crafted font can produce these sizes. -/
def atlasBugGlyphs : List (Nat × Nat) :=
  (201, 1) :: (201, 1) :: (201, 1) :: List.replicate 92 (0, 1)

/-- Glyph bitmap sizes (95 glyphs): a zero-width glyph (such as a space,
whose coverage bitmap is empty) followed by 94 bitmaps of size 10 by 10. -/
def uvBugGlyphs : List (Nat × Nat) :=
  (0, 5) :: List.replicate 94 (10, 10)

/-- A state holding some appended geometry (12 vertices, 18 indices). -/
def sNonEmpty : VtxtState :=
  { s0c with vertex_count := 12, index_count := 18 }

/-- Well-packed glyph bitmap sizes: two 10 by 10 bitmaps. -/
def gsWell : List (Nat × Nat) := [(10, 10), (10, 10)]

/-! ### Helper lemmas about consecutive array stores -/

theorem writeSeq_apply_lt {α : Type} (l : List α) (f : Nat → α) (i j : Nat) (h : j < i) :
    writeSeq f i l j = f j := by
  induction l generalizing f i with
  | nil => rfl
  | cons v rest ih =>
    show writeSeq (Function.update f i v) (i + 1) rest j = f j
    rw [ih _ (i + 1) (by omega), Function.update_apply, if_neg (by omega)]

theorem writeSeq_apply_ge {α : Type} (l : List α) (f : Nat → α) (i j : Nat)
    (h : i + l.length ≤ j) : writeSeq f i l j = f j := by
  induction l generalizing f i with
  | nil => rfl
  | cons v rest ih =>
    show writeSeq (Function.update f i v) (i + 1) rest j = f j
    rw [ih _ (i + 1) (by simp at h ⊢; omega), Function.update_apply, if_neg (by simp at h; omega)]

theorem writeSeq_head {α : Type} (f : Nat → α) (i : Nat) (v : α) (l : List α) :
    writeSeq f i (v :: l) i = v := by
  show writeSeq (Function.update f i v) (i + 1) l i = v
  rw [writeSeq_apply_lt l _ (i + 1) i (by omega), Function.update_apply, if_pos rfl]

/-- Claim C10: whenever `__private_vtxt_append_glyph` drops a glyph — the
codepoint is outside the collected range, or appending 6 more vertices
would exceed the capacity check — the whole library state, buffers, counts
and cursor included, is returned unchanged. -/
theorem vtxt_append_noop_preserves_state (c : Int) (font : vtxt_font) (thp : Int)
    (xoff : ℚ) (s : VtxtState)
    (h : c < VTXT_ASCII_FROM ∨ VTXT_ASCII_TO < c ∨
         VTXT_MAX_CHAR_IN_BUFFER * 6 < s.vertex_count + 6) :
    __private_vtxt_append_glyph c font thp xoff s = s := by
  unfold __private_vtxt_append_glyph
  rcases h with h | h | h
  · rw [if_pos (Or.inl h)]
  · rw [if_pos (Or.inr h)]
  · by_cases h2 : c < VTXT_ASCII_FROM ∨ VTXT_ASCII_TO < c
    · rw [if_pos h2]
    · rw [if_neg h2, if_pos h]

/-- Witness for C10: appending the out-of-range codepoint 200 (and a glyph
into a full buffer) changes nothing. -/
theorem vtxt_append_noop_preserves_state_witness :
    __private_vtxt_append_glyph 200 font_adv10 10 0 s0c = s0c ∧
    __private_vtxt_append_glyph 65 font_adv10 10 0 { s0c with vertex_count := 4795 } =
      { s0c with vertex_count := 4795 } :=
  ⟨vtxt_append_noop_preserves_state 200 font_adv10 10 0 s0c (Or.inr (Or.inl (by decide))),
   vtxt_append_noop_preserves_state 65 font_adv10 10 0 _ (Or.inr (Or.inr (by decide)))⟩

/-- Claim C6: `vtxt_setflags` resets `vertex_count` and `index_count` to 0
exactly when the VTXT_CREATE_INDEX_BUFFER bit of the new flag word differs
from the current configuration, and leaves both counts unchanged when the
bit is the same. -/
theorem vtxt_setflags_mode_switch (s : VtxtState) (newconfig : Nat) :
    (s.config &&& VTXT_CREATE_INDEX_BUFFER ≠ newconfig &&& VTXT_CREATE_INDEX_BUFFER →
      (vtxt_setflags newconfig s).vertex_count = 0 ∧
      (vtxt_setflags newconfig s).index_count = 0) ∧
    (s.config &&& VTXT_CREATE_INDEX_BUFFER = newconfig &&& VTXT_CREATE_INDEX_BUFFER →
      (vtxt_setflags newconfig s).vertex_count = s.vertex_count ∧
      (vtxt_setflags newconfig s).index_count = s.index_count) := by
  constructor
  · intro h
    unfold vtxt_setflags vtxt_clear_buffer
    rw [if_pos h]
    exact ⟨rfl, rfl⟩
  · intro h
    unfold vtxt_setflags vtxt_clear_buffer
    rw [if_neg (fun hn => hn h)]
    exact ⟨rfl, rfl⟩

/-- Witness for C6: from a buffer holding 12 vertices and 18 indices in
non-indexed mode, switching the index bit on clears both counts, while
setting an unrelated flag keeps them. -/
theorem vtxt_setflags_mode_switch_witness :
    ((vtxt_setflags 1 sNonEmpty).vertex_count = 0 ∧
     (vtxt_setflags 1 sNonEmpty).index_count = 0) ∧
    ((vtxt_setflags 2 sNonEmpty).vertex_count = 12 ∧
     (vtxt_setflags 2 sNonEmpty).index_count = 18) :=
  ⟨(vtxt_setflags_mode_switch sNonEmpty 1).1 (by decide),
   (vtxt_setflags_mode_switch sNonEmpty 2).2 (by decide)⟩

/-- Claim C8 (amended): a successful append advances `cursor_x` by the
scaled advance truncated toward zero (the C cast `(int) glyph.advance`),
not by the exact scaled advance. -/
theorem vtxt_cursor_advance_truncated (c : Int) (font : vtxt_font) (thp : Int)
    (xoff : ℚ) (s : VtxtState)
    (hlo : VTXT_ASCII_FROM ≤ c) (hhi : c ≤ VTXT_ASCII_TO)
    (hcap : s.vertex_count + 6 ≤ VTXT_MAX_CHAR_IN_BUFFER * 6) :
    (__private_vtxt_append_glyph c font thp xoff s).cursor_x =
      s.cursor_x + truncToInt ((font.glyphs (c - VTXT_ASCII_FROM)).advance
        * ((thp : ℚ) / (font.font_height_px : ℚ))) := by
  have h1 : ¬(c < VTXT_ASCII_FROM ∨ VTXT_ASCII_TO < c) := by
    simp only [VTXT_ASCII_FROM, VTXT_ASCII_TO] at hlo hhi ⊢
    omega
  have h2 : ¬(VTXT_MAX_CHAR_IN_BUFFER * 6 < s.vertex_count + 6) := by omega
  unfold __private_vtxt_append_glyph
  rw [if_neg h1, if_neg h2]
  by_cases hb : s.config &&& VTXT_CREATE_INDEX_BUFFER ≠ 0 <;> simp [hb]

/-- Witness for C8's amended theorem: with base height 10, advance 7 and
requested height 15 the scaled advance is 10.5 and the cursor moves from
100 to 110. -/
theorem vtxt_cursor_advance_truncated_witness :
    (__private_vtxt_append_glyph 65 font_adv7 15 0 s0c).cursor_x = 110 := by
  rw [vtxt_cursor_advance_truncated 65 font_adv7 15 0 s0c (by decide) (by decide) (by decide)]
  norm_num [s0c, clearedState, font_adv7, truncToInt, VTXT_ASCII_FROM]

/-- Counterexample for C8 as stated: the cursor motion (an integer, here
10) differs from the exact scaled advance width 7 * (15/10) = 10.5. -/
theorem vtxt_cursor_advance_counterexample :
    (__private_vtxt_append_glyph 65 font_adv7 15 0 s0c).cursor_x = 110 ∧
    (((__private_vtxt_append_glyph 65 font_adv7 15 0 s0c).cursor_x - s0c.cursor_x : Int) : ℚ)
      ≠ (font_adv7.glyphs (65 - VTXT_ASCII_FROM)).advance
          * ((15 : ℚ) / (font_adv7.font_height_px : ℚ)) := by
  constructor
  · norm_num [__private_vtxt_append_glyph, s0c, clearedState, font_adv7, truncToInt,
      VTXT_ASCII_FROM, VTXT_ASCII_TO, VTXT_MAX_CHAR_IN_BUFFER, VTXT_CREATE_INDEX_BUFFER,
      VTXT_USE_CLIPSPACE_COORDS, VTXT_FLIP_Y]
  · norm_num [__private_vtxt_append_glyph, s0c, clearedState, font_adv7, truncToInt,
      VTXT_ASCII_FROM, VTXT_ASCII_TO, VTXT_MAX_CHAR_IN_BUFFER, VTXT_CREATE_INDEX_BUFFER,
      VTXT_USE_CLIPSPACE_COORDS, VTXT_FLIP_Y]

/-- Bitwise-and facts for the flag words used by the dual-mode and
clip-space theorems. -/
theorem land_bits :
    ((0 : Nat) &&& 1 = 0) ∧ ((0 : Nat) &&& 2 = 0) ∧ ((0 : Nat) &&& 8 = 0) ∧
    ((1 : Nat) &&& 1 = 1) ∧ ((1 : Nat) &&& 2 = 0) ∧ ((1 : Nat) &&& 8 = 0) ∧
    ((2 : Nat) &&& 1 = 0) ∧ ((2 : Nat) &&& 2 = 2) ∧ ((2 : Nat) &&& 8 = 0) ∧
    ((3 : Nat) &&& 1 = 1) ∧ ((3 : Nat) &&& 2 = 2) ∧ ((3 : Nat) &&& 8 = 0) ∧
    ((8 : Nat) &&& 1 = 0) ∧ ((8 : Nat) &&& 2 = 0) ∧ ((8 : Nat) &&& 8 = 8) ∧
    ((9 : Nat) &&& 1 = 1) ∧ ((9 : Nat) &&& 2 = 0) ∧ ((9 : Nat) &&& 8 = 8) ∧
    ((10 : Nat) &&& 1 = 0) ∧ ((10 : Nat) &&& 2 = 2) ∧ ((10 : Nat) &&& 8 = 8) ∧
    ((11 : Nat) &&& 1 = 1) ∧ ((11 : Nat) &&& 2 = 2) ∧ ((11 : Nat) &&& 8 = 8) := by
  decide

set_option maxHeartbeats 1000000 in
/-- Claim C4: for every glyph, cursor position and configuration, the
indexed-mode output (4 vertices plus indices 0,2,1,0,3,2) and the
non-indexed-mode output (6 vertices) describe the same two triangles: the
triangles obtained by resolving the indices equal the non-indexed
triangles up to cyclic rotation (winding preserved), with identical
x, y, u, v at each corner. -/
theorem vtxt_dual_mode_quads_equal (font : vtxt_font) (thp : Int) (xoff : ℚ)
    (cx cy sw sh : Int) (clip flip : Bool) :
    cyclicEqTriangle
      (readVertex (__private_vtxt_append_glyph 65 font thp xoff
          (clearedState (VTXT_CREATE_INDEX_BUFFER
            + (if clip then VTXT_USE_CLIPSPACE_COORDS else 0)
            + (if flip then VTXT_FLIP_Y else 0)) cx cy sw sh))
        ((__private_vtxt_append_glyph 65 font thp xoff
          (clearedState (VTXT_CREATE_INDEX_BUFFER
            + (if clip then VTXT_USE_CLIPSPACE_COORDS else 0)
            + (if flip then VTXT_FLIP_Y else 0)) cx cy sw sh)).index_buffer 0),
       readVertex (__private_vtxt_append_glyph 65 font thp xoff
          (clearedState (VTXT_CREATE_INDEX_BUFFER
            + (if clip then VTXT_USE_CLIPSPACE_COORDS else 0)
            + (if flip then VTXT_FLIP_Y else 0)) cx cy sw sh))
        ((__private_vtxt_append_glyph 65 font thp xoff
          (clearedState (VTXT_CREATE_INDEX_BUFFER
            + (if clip then VTXT_USE_CLIPSPACE_COORDS else 0)
            + (if flip then VTXT_FLIP_Y else 0)) cx cy sw sh)).index_buffer 1),
       readVertex (__private_vtxt_append_glyph 65 font thp xoff
          (clearedState (VTXT_CREATE_INDEX_BUFFER
            + (if clip then VTXT_USE_CLIPSPACE_COORDS else 0)
            + (if flip then VTXT_FLIP_Y else 0)) cx cy sw sh))
        ((__private_vtxt_append_glyph 65 font thp xoff
          (clearedState (VTXT_CREATE_INDEX_BUFFER
            + (if clip then VTXT_USE_CLIPSPACE_COORDS else 0)
            + (if flip then VTXT_FLIP_Y else 0)) cx cy sw sh)).index_buffer 2))
      (readVertex (__private_vtxt_append_glyph 65 font thp xoff
          (clearedState ((if clip then VTXT_USE_CLIPSPACE_COORDS else 0)
            + (if flip then VTXT_FLIP_Y else 0)) cx cy sw sh)) 0,
       readVertex (__private_vtxt_append_glyph 65 font thp xoff
          (clearedState ((if clip then VTXT_USE_CLIPSPACE_COORDS else 0)
            + (if flip then VTXT_FLIP_Y else 0)) cx cy sw sh)) 1,
       readVertex (__private_vtxt_append_glyph 65 font thp xoff
          (clearedState ((if clip then VTXT_USE_CLIPSPACE_COORDS else 0)
            + (if flip then VTXT_FLIP_Y else 0)) cx cy sw sh)) 2) ∧
    cyclicEqTriangle
      (readVertex (__private_vtxt_append_glyph 65 font thp xoff
          (clearedState (VTXT_CREATE_INDEX_BUFFER
            + (if clip then VTXT_USE_CLIPSPACE_COORDS else 0)
            + (if flip then VTXT_FLIP_Y else 0)) cx cy sw sh))
        ((__private_vtxt_append_glyph 65 font thp xoff
          (clearedState (VTXT_CREATE_INDEX_BUFFER
            + (if clip then VTXT_USE_CLIPSPACE_COORDS else 0)
            + (if flip then VTXT_FLIP_Y else 0)) cx cy sw sh)).index_buffer 3),
       readVertex (__private_vtxt_append_glyph 65 font thp xoff
          (clearedState (VTXT_CREATE_INDEX_BUFFER
            + (if clip then VTXT_USE_CLIPSPACE_COORDS else 0)
            + (if flip then VTXT_FLIP_Y else 0)) cx cy sw sh))
        ((__private_vtxt_append_glyph 65 font thp xoff
          (clearedState (VTXT_CREATE_INDEX_BUFFER
            + (if clip then VTXT_USE_CLIPSPACE_COORDS else 0)
            + (if flip then VTXT_FLIP_Y else 0)) cx cy sw sh)).index_buffer 4),
       readVertex (__private_vtxt_append_glyph 65 font thp xoff
          (clearedState (VTXT_CREATE_INDEX_BUFFER
            + (if clip then VTXT_USE_CLIPSPACE_COORDS else 0)
            + (if flip then VTXT_FLIP_Y else 0)) cx cy sw sh))
        ((__private_vtxt_append_glyph 65 font thp xoff
          (clearedState (VTXT_CREATE_INDEX_BUFFER
            + (if clip then VTXT_USE_CLIPSPACE_COORDS else 0)
            + (if flip then VTXT_FLIP_Y else 0)) cx cy sw sh)).index_buffer 5))
      (readVertex (__private_vtxt_append_glyph 65 font thp xoff
          (clearedState ((if clip then VTXT_USE_CLIPSPACE_COORDS else 0)
            + (if flip then VTXT_FLIP_Y else 0)) cx cy sw sh)) 3,
       readVertex (__private_vtxt_append_glyph 65 font thp xoff
          (clearedState ((if clip then VTXT_USE_CLIPSPACE_COORDS else 0)
            + (if flip then VTXT_FLIP_Y else 0)) cx cy sw sh)) 4,
       readVertex (__private_vtxt_append_glyph 65 font thp xoff
          (clearedState ((if clip then VTXT_USE_CLIPSPACE_COORDS else 0)
            + (if flip then VTXT_FLIP_Y else 0)) cx cy sw sh)) 5) := by
  constructor
  · cases clip <;> cases flip <;>
      exact Or.inl (by
        norm_num [__private_vtxt_append_glyph, clearedState, readVertex, writeSeq,
          Function.update, VTXT_ASCII_FROM, VTXT_ASCII_TO, VTXT_MAX_CHAR_IN_BUFFER,
          VTXT_CREATE_INDEX_BUFFER, VTXT_USE_CLIPSPACE_COORDS, VTXT_FLIP_Y, land_bits])
  · cases clip <;> cases flip <;>
      exact Or.inr (Or.inl (by
        norm_num [__private_vtxt_append_glyph, clearedState, readVertex, writeSeq,
          Function.update, VTXT_ASCII_FROM, VTXT_ASCII_TO, VTXT_MAX_CHAR_IN_BUFFER,
          VTXT_CREATE_INDEX_BUFFER, VTXT_USE_CLIPSPACE_COORDS, VTXT_FLIP_Y, land_bits,
          rotateTriangle]))

/-- Claim C5: with clip-space coordinates enabled every emitted vertex
position is the screen-space position passed through
`x' = (x / backbuffer_width) * 2 - 1` and `y' = 1 - (y / backbuffer_height) * 2`,
and these transforms map pixel (0,0) of an 800 by 600 backbuffer to (-1, 1)
and pixel (800,600) to (1, -1). -/
theorem vtxt_clipspace_transform_correct (font : vtxt_font) (thp : Int) (xoff : ℚ)
    (cx cy sw sh : Int) :
    let s1 := __private_vtxt_append_glyph 65 font thp xoff
      (clearedState VTXT_USE_CLIPSPACE_COORDS cx cy sw sh)
    let scale : ℚ := (thp : ℚ) / (font.font_height_px : ℚ)
    let g := font.glyphs (65 - VTXT_ASCII_FROM)
    let topS : ℚ := (cy : ℚ) + g.offset_y * scale
    let botS : ℚ := (cy : ℚ) + g.offset_y * scale + g.height * scale
    let leftS : ℚ := (cx : ℚ) + g.offset_x * scale + xoff
    let rightS : ℚ := (cx : ℚ) + g.offset_x * scale + g.width * scale + xoff
    ((readVertex s1 0).x = vtxt_clip_x sw leftS ∧ (readVertex s1 0).y = vtxt_clip_y sh botS ∧
     (readVertex s1 1).x = vtxt_clip_x sw rightS ∧ (readVertex s1 1).y = vtxt_clip_y sh topS ∧
     (readVertex s1 2).x = vtxt_clip_x sw leftS ∧ (readVertex s1 2).y = vtxt_clip_y sh topS ∧
     (readVertex s1 3).x = vtxt_clip_x sw rightS ∧ (readVertex s1 3).y = vtxt_clip_y sh botS ∧
     (readVertex s1 4).x = vtxt_clip_x sw rightS ∧ (readVertex s1 4).y = vtxt_clip_y sh topS ∧
     (readVertex s1 5).x = vtxt_clip_x sw leftS ∧ (readVertex s1 5).y = vtxt_clip_y sh botS) ∧
    vtxt_clip_x 800 0 = -1 ∧ vtxt_clip_y 600 0 = 1 ∧
    vtxt_clip_x 800 800 = 1 ∧ vtxt_clip_y 600 600 = -1 := by
  exact ⟨by
      norm_num [__private_vtxt_append_glyph, clearedState, readVertex, writeSeq,
        Function.update, VTXT_ASCII_FROM, VTXT_ASCII_TO, VTXT_MAX_CHAR_IN_BUFFER,
        VTXT_CREATE_INDEX_BUFFER, VTXT_USE_CLIPSPACE_COORDS, VTXT_FLIP_Y, land_bits],
    by norm_num [vtxt_clip_x, vtxt_clip_y]⟩

/-- One indexed-mode append of the codepoint-65 glyph: the vertex count
grows by 4, the index count by 6, and the first index entry is written at
slot `index_count` with value `vertex_count`. -/
theorem append_idx_spec (s : VtxtState) (hcfg : s.config = VTXT_CREATE_INDEX_BUFFER)
    (hcap : s.vertex_count + 6 ≤ VTXT_MAX_CHAR_IN_BUFFER * 6) :
    (__private_vtxt_append_glyph 65 font_zero 10 0 s).vertex_count = s.vertex_count + 4 ∧
    (__private_vtxt_append_glyph 65 font_zero 10 0 s).index_count = s.index_count + 6 ∧
    (__private_vtxt_append_glyph 65 font_zero 10 0 s).config = s.config ∧
    (__private_vtxt_append_glyph 65 font_zero 10 0 s).index_buffer s.index_count
      = s.vertex_count := by
  have h1 : ¬((65 : Int) < VTXT_ASCII_FROM ∨ VTXT_ASCII_TO < 65) := by decide
  have h2 : ¬(VTXT_MAX_CHAR_IN_BUFFER * 6 < s.vertex_count + 6) := by omega
  have h3 : s.config &&& VTXT_CREATE_INDEX_BUFFER ≠ 0 := by rw [hcfg]; decide
  unfold __private_vtxt_append_glyph
  rw [if_neg h1, if_neg h2]
  simp only [if_pos h3]
  exact ⟨by trivial, by trivial, by trivial, writeSeq_head _ _ _ _⟩

/-- Counts after `n` indexed-mode appends: `4 n` vertices and `6 n` index
entries, as long as the vertex-count guard keeps passing. -/
theorem idxIter_counts : ∀ n : Nat, n ≤ 1199 →
    (idxIter n).vertex_count = 4 * n ∧ (idxIter n).index_count = 6 * n ∧
    (idxIter n).config = VTXT_CREATE_INDEX_BUFFER := by
  intro n
  induction n with
  | zero => intro _; exact ⟨rfl, rfl, rfl⟩
  | succ k ih =>
    intro hk
    obtain ⟨hv, hi, hc⟩ := ih (by omega)
    have e : idxIter (k + 1) = __private_vtxt_append_glyph 65 font_zero 10 0 (idxIter k) :=
      Function.iterate_succ_apply' _ _ _
    have hcap : (idxIter k).vertex_count + 6 ≤ VTXT_MAX_CHAR_IN_BUFFER * 6 := by
      rw [hv]
      simp only [VTXT_MAX_CHAR_IN_BUFFER]
      omega
    obtain ⟨sv, si, sc, _⟩ := append_idx_spec (idxIter k) hc hcap
    rw [e, sv, si, sc, hv, hi, hc]
    exact ⟨by omega, by omega, rfl⟩

/-- Claim C1 (refuting the index-capacity part): in indexed mode the guard
`VTXT_MAX_CHAR_IN_BUFFER * 6 < vertex_count + 6` only protects the vertex
array, so appending 801 glyphs drives `index_count` to 4806, past the
4800-entry capacity of `_vtxt_index_buffer`, and the 801st append stores
vertex index 3200 at the out-of-bounds slot 4800. -/
theorem vtxt_index_buffer_overflow :
    (idxIter 801).index_count = 4806 ∧
    VTXT_MAX_CHAR_IN_BUFFER * 6 < (idxIter 801).index_count ∧
    (idxIter 801).index_buffer 4800 = 3200 := by
  obtain ⟨hv, hi, hc⟩ := idxIter_counts 800 (by omega)
  have e : idxIter 801 = __private_vtxt_append_glyph 65 font_zero 10 0 (idxIter 800) :=
    Function.iterate_succ_apply' _ _ _
  have hcap : (idxIter 800).vertex_count + 6 ≤ VTXT_MAX_CHAR_IN_BUFFER * 6 := by
    rw [hv]
    simp only [VTXT_MAX_CHAR_IN_BUFFER]
    omega
  obtain ⟨sv, si, sc, sb⟩ := append_idx_spec (idxIter 800) hc hcap
  refine ⟨?_, ?_, ?_⟩
  · rw [e, si, hi]
  · rw [e, si, hi]
    simp only [VTXT_MAX_CHAR_IN_BUFFER]
    omega
  · have hslot : (4800 : Nat) = (idxIter 800).index_count := by rw [hi]
    rw [e, hslot, sb, hv]

/-- Claim C3 (refuted): on a string whose first character is a non-newline
codepoint outside the collected range (here the single character 1), the
`continue` in `vtxt_get_text_bounding_box_info` skips the `++text`
increment, so the loop re-examines the same character forever: no fuel
bound suffices for the loop to return. -/
theorem vtxt_bbox_nonterminating_on_unsupported :
    ∀ (fuel : Nat) (font : vtxt_font) (thp : Int) (lg : ℚ),
      vtxt_bbox_run font thp lg [1] fuel ⟨0, 0, 0, 0⟩ = none := by
  intro fuel font thp lg
  induction fuel with
  | zero => rfl
  | succ k ih =>
    have hchar : charAt [1] 0 = 1 := rfl
    have hstep : vtxt_bbox_step font thp lg [1] ⟨0, 0, 0, 0⟩ = ⟨0, 0, 0, 0⟩ := by
      simp only [vtxt_bbox_step, hchar]
      rw [if_pos (by decide), if_pos (by decide)]
    simp only [vtxt_bbox_run, hchar]
    rw [if_neg (by decide), hstep]
    exact ih

set_option maxRecDepth 4000 in
/-- Claim C2 (refuted): for the 95-glyph width profile `atlasBugGlyphs`
(atlas width 400, row height 2) the greedy packer opens a third shelf row
even though the allocation formula only pays for
`ceil(698 / 400) = 2` rows: some glyph with nonempty bitmap is blitted at
a row starting at or beyond the allocated atlas height, i.e. its first
written pixel index is at or beyond `width * height` — an out-of-bounds
write. -/
theorem vtxt_atlas_packer_overflows_allocation :
    ∃ e ∈ vtxt_pack_glyphs VTXT_DESIRED_ATLAS_WIDTH
        (vtxt_tallest_glyph_height atlasBugGlyphs 0 + VTXT_ATLAS_PAD_Y) atlasBugGlyphs 0 0,
      0 < e.w ∧ 0 < e.h ∧
      vtxt_desired_atlas_height atlasBugGlyphs ≤ e.y ∧
      VTXT_DESIRED_ATLAS_WIDTH * vtxt_desired_atlas_height atlasBugGlyphs
        ≤ e.y * VTXT_DESIRED_ATLAS_WIDTH + e.x ∧
      e.y = 2 * (vtxt_tallest_glyph_height atlasBugGlyphs 0 + VTXT_ATLAS_PAD_Y) ∧
      ceilDivNat (vtxt_aggregate_glyph_width atlasBugGlyphs 0) VTXT_DESIRED_ATLAS_WIDTH = 2 := by
  decide

set_option maxRecDepth 4000 in
/-- Counterexample for C9 as stated: a font with a zero-width glyph (the
first entry of `uvBugGlyphs`, e.g. a space character) gets
`min_u = max_u`, violating the strict inequality `min_u < max_u`. -/
theorem vtxt_atlas_uv_zero_width_counterexample :
    ∃ e ∈ vtxt_pack_glyphs VTXT_DESIRED_ATLAS_WIDTH
        (vtxt_tallest_glyph_height uvBugGlyphs 0 + VTXT_ATLAS_PAD_Y) uvBugGlyphs 0 0,
      ¬ ((vtxt_entry_uv VTXT_DESIRED_ATLAS_WIDTH (vtxt_desired_atlas_height uvBugGlyphs) e).min_u
          < (vtxt_entry_uv VTXT_DESIRED_ATLAS_WIDTH (vtxt_desired_atlas_height uvBugGlyphs) e).max_u) := by
  refine ⟨⟨0, 0, 0, 5⟩, by decide, ?_⟩
  norm_num [vtxt_entry_uv]

/-- Every packed entry carries the width and height of one of the input
glyph bitmaps. -/
theorem pack_mem_dims (W rowH : Nat) (gs : List (Nat × Nat)) :
    ∀ ax ay : Nat, ∀ e ∈ vtxt_pack_glyphs W rowH gs ax ay, (e.w, e.h) ∈ gs := by
  induction gs with
  | nil => intro ax ay e he; simp [vtxt_pack_glyphs] at he
  | cons g rest ih =>
    intro ax ay e he
    simp only [vtxt_pack_glyphs] at he
    split at he
    · rcases List.mem_cons.mp he with rfl | hmem
      · simp
      · exact List.mem_cons_of_mem _ (ih _ _ e hmem)
    · rcases List.mem_cons.mp he with rfl | hmem
      · simp
      · exact List.mem_cons_of_mem _ (ih _ _ e hmem)

/-- Every packed entry stays within the atlas width, provided every glyph
is no wider than the atlas. -/
theorem pack_x_bound (W rowH : Nat) (gs : List (Nat × Nat)) (hW : ∀ g ∈ gs, g.1 ≤ W) :
    ∀ ax ay : Nat, ∀ e ∈ vtxt_pack_glyphs W rowH gs ax ay, e.x + e.w ≤ W := by
  induction gs with
  | nil => intro ax ay e he; simp [vtxt_pack_glyphs] at he
  | cons g rest ih =>
    intro ax ay e he
    have hWrest : ∀ g2 ∈ rest, g2.1 ≤ W := fun g2 h2 => hW g2 (List.mem_cons_of_mem _ h2)
    simp only [vtxt_pack_glyphs] at he
    split at he
    · rcases List.mem_cons.mp he with rfl | hmem
      · have := hW g (List.mem_cons_self _ _)
        show 0 + g.1 ≤ W
        omega
      · exact ih hWrest _ _ e hmem
    · rcases List.mem_cons.mp he with rfl | hmem
      · rename_i h
        show ax + g.1 ≤ W
        omega
      · exact ih hWrest _ _ e hmem

/-- Position invariant of the packer: every entry produced from the cursor
position (ax, ay) is either on row ay at or to the right of ax, or on a
row at least one full shelf lower. -/
theorem pack_pos_inv (W rowH : Nat) (gs : List (Nat × Nat)) :
    ∀ ax ay : Nat, ∀ e ∈ vtxt_pack_glyphs W rowH gs ax ay,
      (e.y = ay ∧ ax ≤ e.x) ∨ ay + rowH ≤ e.y := by
  induction gs with
  | nil => intro ax ay e he; simp [vtxt_pack_glyphs] at he
  | cons g rest ih =>
    intro ax ay e he
    simp only [vtxt_pack_glyphs] at he
    split at he
    · rcases List.mem_cons.mp he with rfl | hmem
      · right
        show ay + rowH ≤ ay + rowH
        omega
      · rcases ih _ _ e hmem with ⟨hy, _⟩ | hy
        · right; omega
        · right; omega
    · rcases List.mem_cons.mp he with rfl | hmem
      · left
        exact ⟨rfl, le_refl _⟩
      · rcases ih _ _ e hmem with ⟨hy, hx⟩ | hy
        · left
          refine ⟨hy, ?_⟩
          simp only [VTXT_ATLAS_PAD_X] at hx
          omega
        · right; exact hy

/-- Separation of packed entries: a later entry is either further right on
the same row (with at least the x padding in between) or at least one full
shelf lower. -/
theorem pack_sep (W rowH : Nat) (gs : List (Nat × Nat)) :
    ∀ ax ay : Nat, List.Pairwise
      (fun e1 e2 : PackEntry =>
        (e2.y = e1.y ∧ e1.x + e1.w + VTXT_ATLAS_PAD_X ≤ e2.x) ∨ e1.y + rowH ≤ e2.y)
      (vtxt_pack_glyphs W rowH gs ax ay) := by
  induction gs with
  | nil => intro ax ay; simp [vtxt_pack_glyphs]
  | cons g rest ih =>
    intro ax ay
    simp only [vtxt_pack_glyphs]
    split
    · refine List.pairwise_cons.mpr ⟨?_, ih _ _⟩
      intro e he
      rcases pack_pos_inv W rowH rest _ _ e he with ⟨hy, hx⟩ | hy
      · left
        refine ⟨hy, ?_⟩
        show 0 + g.1 + VTXT_ATLAS_PAD_X ≤ e.x
        omega
      · right
        show ay + rowH + rowH ≤ e.y
        omega
    · refine List.pairwise_cons.mpr ⟨?_, ih _ _⟩
      intro e he
      rcases pack_pos_inv W rowH rest _ _ e he with ⟨hy, hx⟩ | hy
      · left
        exact ⟨hy, hx⟩
      · right
        exact hy

/-- The tallest-glyph fold only grows its accumulator. -/
theorem tallest_init_le (gs : List (Nat × Nat)) :
    ∀ t : Nat, t ≤ vtxt_tallest_glyph_height gs t := by
  induction gs with
  | nil => intro t; exact le_refl _
  | cons g rest ih =>
    intro t
    show t ≤ vtxt_tallest_glyph_height rest (if t < g.2 then g.2 else t)
    calc t ≤ (if t < g.2 then g.2 else t) := by split <;> omega
    _ ≤ _ := ih _

/-- Every glyph height is bounded by the tallest-glyph fold. -/
theorem mem_le_tallest (gs : List (Nat × Nat)) :
    ∀ t : Nat, ∀ g ∈ gs, g.2 ≤ vtxt_tallest_glyph_height gs t := by
  induction gs with
  | nil => intro t g hg; simp at hg
  | cons g0 rest ih =>
    intro t g hg
    rcases List.mem_cons.mp hg with rfl | hmem
    · show g.2 ≤ vtxt_tallest_glyph_height rest (if t < g.2 then g.2 else t)
      calc g.2 ≤ (if t < g.2 then g.2 else t) := by split <;> omega
      _ ≤ _ := tallest_init_le _ _
    · exact ih _ g hmem

/-- Claim C9 (amended): provided every glyph bitmap has positive width and
height with width at most the atlas width, and the greedy packing fits in
the allocated atlas height (which the height formula does not always
guarantee), every glyph's texture rectangle satisfies
`0 ≤ min_u < max_u ≤ 1` and `0 ≤ min_v < max_v ≤ 1`, and no two glyphs'
rectangles overlap. -/
theorem vtxt_atlas_uv_invariant_amended (gs : List (Nat × Nat))
    (hpos : ∀ g ∈ gs, 0 < g.1 ∧ g.1 ≤ VTXT_DESIRED_ATLAS_WIDTH ∧ 0 < g.2)
    (hfit : ∀ e ∈ vtxt_pack_glyphs VTXT_DESIRED_ATLAS_WIDTH
        (vtxt_tallest_glyph_height gs 0 + VTXT_ATLAS_PAD_Y) gs 0 0,
        e.y + (vtxt_tallest_glyph_height gs 0 + VTXT_ATLAS_PAD_Y)
          ≤ vtxt_desired_atlas_height gs) :
    (∀ e ∈ vtxt_pack_glyphs VTXT_DESIRED_ATLAS_WIDTH
        (vtxt_tallest_glyph_height gs 0 + VTXT_ATLAS_PAD_Y) gs 0 0,
      0 ≤ (vtxt_entry_uv VTXT_DESIRED_ATLAS_WIDTH (vtxt_desired_atlas_height gs) e).min_u ∧
      (vtxt_entry_uv VTXT_DESIRED_ATLAS_WIDTH (vtxt_desired_atlas_height gs) e).min_u
        < (vtxt_entry_uv VTXT_DESIRED_ATLAS_WIDTH (vtxt_desired_atlas_height gs) e).max_u ∧
      (vtxt_entry_uv VTXT_DESIRED_ATLAS_WIDTH (vtxt_desired_atlas_height gs) e).max_u ≤ 1 ∧
      0 ≤ (vtxt_entry_uv VTXT_DESIRED_ATLAS_WIDTH (vtxt_desired_atlas_height gs) e).min_v ∧
      (vtxt_entry_uv VTXT_DESIRED_ATLAS_WIDTH (vtxt_desired_atlas_height gs) e).min_v
        < (vtxt_entry_uv VTXT_DESIRED_ATLAS_WIDTH (vtxt_desired_atlas_height gs) e).max_v ∧
      (vtxt_entry_uv VTXT_DESIRED_ATLAS_WIDTH (vtxt_desired_atlas_height gs) e).max_v ≤ 1) ∧
    List.Pairwise
      (fun e1 e2 : PackEntry =>
        ¬ uvOverlap (vtxt_entry_uv VTXT_DESIRED_ATLAS_WIDTH (vtxt_desired_atlas_height gs) e1)
            (vtxt_entry_uv VTXT_DESIRED_ATLAS_WIDTH (vtxt_desired_atlas_height gs) e2))
      (vtxt_pack_glyphs VTXT_DESIRED_ATLAS_WIDTH
        (vtxt_tallest_glyph_height gs 0 + VTXT_ATLAS_PAD_Y) gs 0 0) := by
  have hWq : (0 : ℚ) < ((VTXT_DESIRED_ATLAS_WIDTH : Nat) : ℚ) := by
    norm_num [VTXT_DESIRED_ATLAS_WIDTH]
  constructor
  · intro e he
    have hdims := pack_mem_dims _ _ gs _ _ e he
    obtain ⟨hw, hwle, hh⟩ := hpos (e.w, e.h) hdims
    have hxw : e.x + e.w ≤ VTXT_DESIRED_ATLAS_WIDTH :=
      pack_x_bound _ _ gs (fun g hg => (hpos g hg).2.1) _ _ e he
    have hyfit := hfit e he
    have hhle : e.h ≤ vtxt_tallest_glyph_height gs 0 := mem_le_tallest gs 0 (e.w, e.h) hdims
    have hH : 0 < vtxt_desired_atlas_height gs := by
      simp only [VTXT_ATLAS_PAD_Y] at hyfit
      omega
    have hHq : (0 : ℚ) < ((vtxt_desired_atlas_height gs : Nat) : ℚ) := by exact_mod_cast hH
    have hyh : e.y + e.h ≤ vtxt_desired_atlas_height gs := by
      simp only [VTXT_ATLAS_PAD_Y] at hyfit
      omega
    simp only [vtxt_entry_uv]
    refine ⟨?_, ?_, ?_, ?_, ?_, ?_⟩
    · exact div_nonneg (by positivity) (le_of_lt hWq)
    · exact (div_lt_div_iff_of_pos_right hWq).mpr (by exact_mod_cast Nat.lt_add_of_pos_right hw)
    · rw [div_le_one hWq]
      exact_mod_cast hxw
    · exact div_nonneg (by positivity) (le_of_lt hHq)
    · exact (div_lt_div_iff_of_pos_right hHq).mpr (by exact_mod_cast Nat.lt_add_of_pos_right hh)
    · rw [div_le_one hHq]
      exact_mod_cast hyh
  · have hsep := pack_sep VTXT_DESIRED_ATLAS_WIDTH
      (vtxt_tallest_glyph_height gs 0 + VTXT_ATLAS_PAD_Y) gs 0 0
    refine List.Pairwise.imp_of_mem ?_ hsep
    intro e1 e2 h1 h2 hrel hov
    simp only [uvOverlap, vtxt_entry_uv] at hov
    obtain ⟨o1, o2, o3, o4⟩ := hov
    rcases hrel with ⟨hy, hx⟩ | hy
    · have hxle : e1.x + e1.w ≤ e2.x := by
        simp only [VTXT_ATLAS_PAD_X] at hx
        omega
      have : ((e1.x + e1.w : Nat) : ℚ) ≤ ((e2.x : Nat) : ℚ) := by exact_mod_cast hxle
      exact absurd o2 (not_lt.mpr ((div_le_div_iff_of_pos_right hWq).mpr this))
    · have hh1 : e1.h ≤ vtxt_tallest_glyph_height gs 0 :=
        mem_le_tallest gs 0 (e1.w, e1.h) (pack_mem_dims _ _ gs _ _ e1 h1)
      have hyy : e1.y + e1.h ≤ e2.y := by
        simp only [VTXT_ATLAS_PAD_Y] at hy
        omega
      have hH : 0 < vtxt_desired_atlas_height gs := by
        have h1f := hfit e1 h1
        simp only [VTXT_ATLAS_PAD_Y] at h1f
        omega
      have hHq : (0 : ℚ) < ((vtxt_desired_atlas_height gs : Nat) : ℚ) := by exact_mod_cast hH
      have : ((e1.y + e1.h : Nat) : ℚ) ≤ ((e2.y : Nat) : ℚ) := by exact_mod_cast hyy
      exact absurd o4 (not_lt.mpr ((div_le_div_iff_of_pos_right hHq).mpr this))

/-- Witness for C9's amended theorem at the concrete glyph list `gsWell`,
whose packing fits in its allocated atlas (height 11, one shelf row). -/
theorem vtxt_atlas_uv_invariant_amended_witness :
    (∀ e ∈ vtxt_pack_glyphs VTXT_DESIRED_ATLAS_WIDTH
        (vtxt_tallest_glyph_height gsWell 0 + VTXT_ATLAS_PAD_Y) gsWell 0 0,
      0 ≤ (vtxt_entry_uv VTXT_DESIRED_ATLAS_WIDTH (vtxt_desired_atlas_height gsWell) e).min_u ∧
      (vtxt_entry_uv VTXT_DESIRED_ATLAS_WIDTH (vtxt_desired_atlas_height gsWell) e).min_u
        < (vtxt_entry_uv VTXT_DESIRED_ATLAS_WIDTH (vtxt_desired_atlas_height gsWell) e).max_u ∧
      (vtxt_entry_uv VTXT_DESIRED_ATLAS_WIDTH (vtxt_desired_atlas_height gsWell) e).max_u ≤ 1 ∧
      0 ≤ (vtxt_entry_uv VTXT_DESIRED_ATLAS_WIDTH (vtxt_desired_atlas_height gsWell) e).min_v ∧
      (vtxt_entry_uv VTXT_DESIRED_ATLAS_WIDTH (vtxt_desired_atlas_height gsWell) e).min_v
        < (vtxt_entry_uv VTXT_DESIRED_ATLAS_WIDTH (vtxt_desired_atlas_height gsWell) e).max_v ∧
      (vtxt_entry_uv VTXT_DESIRED_ATLAS_WIDTH (vtxt_desired_atlas_height gsWell) e).max_v ≤ 1) ∧
    List.Pairwise
      (fun e1 e2 : PackEntry =>
        ¬ uvOverlap (vtxt_entry_uv VTXT_DESIRED_ATLAS_WIDTH (vtxt_desired_atlas_height gsWell) e1)
            (vtxt_entry_uv VTXT_DESIRED_ATLAS_WIDTH (vtxt_desired_atlas_height gsWell) e2))
      (vtxt_pack_glyphs VTXT_DESIRED_ATLAS_WIDTH
        (vtxt_tallest_glyph_height gsWell 0 + VTXT_ATLAS_PAD_Y) gsWell 0 0) :=
  vtxt_atlas_uv_invariant_amended gsWell (by decide) (by decide)

/-- One successful append in the default configuration (screen space,
non-indexed): six vertices are appended, the cursor advances by the
truncated scaled advance, slots below the previous write position are
untouched, and the first written slot holds the quad's left x coordinate
`cursor_x + scaled offset_x + x_offset_from_cursor`. -/
theorem append_glyph_spec0 (c : Int) (font : vtxt_font) (thp : Int) (d : ℚ)
    (s : VtxtState)
    (hc1 : VTXT_ASCII_FROM ≤ c) (hc2 : c ≤ VTXT_ASCII_TO)
    (hcap : s.vertex_count + 6 ≤ VTXT_MAX_CHAR_IN_BUFFER * 6)
    (hcfg : s.config = 0) :
    (__private_vtxt_append_glyph c font thp d s).vertex_count = s.vertex_count + 6 ∧
    (__private_vtxt_append_glyph c font thp d s).config = 0 ∧
    (__private_vtxt_append_glyph c font thp d s).cursor_x =
      s.cursor_x + truncToInt ((font.glyphs (c - VTXT_ASCII_FROM)).advance
        * ((thp : ℚ) / (font.font_height_px : ℚ))) ∧
    (∀ j, j < s.vertex_count * 4 →
      (__private_vtxt_append_glyph c font thp d s).vertex_buffer j = s.vertex_buffer j) ∧
    (__private_vtxt_append_glyph c font thp d s).vertex_buffer (s.vertex_count * 4) =
      (s.cursor_x : ℚ) + (font.glyphs (c - VTXT_ASCII_FROM)).offset_x
        * ((thp : ℚ) / (font.font_height_px : ℚ)) + d := by
  have h1 : ¬(c < VTXT_ASCII_FROM ∨ VTXT_ASCII_TO < c) := by
    simp only [VTXT_ASCII_FROM, VTXT_ASCII_TO] at hc1 hc2 ⊢
    omega
  have h2 : ¬(VTXT_MAX_CHAR_IN_BUFFER * 6 < s.vertex_count + 6) := by omega
  have h3 : ¬(s.config &&& VTXT_CREATE_INDEX_BUFFER ≠ 0) := by rw [hcfg]; decide
  have h4 : ¬(s.config &&& VTXT_USE_CLIPSPACE_COORDS ≠ 0) := by rw [hcfg]; decide
  have h5 : ¬(s.config &&& VTXT_FLIP_Y ≠ 0) := by rw [hcfg]; decide
  unfold __private_vtxt_append_glyph
  rw [if_neg h1, if_neg h2]
  simp only [if_neg h3, if_neg h4, if_neg h5]
  refine ⟨by trivial, hcfg, by trivial, ?_, ?_⟩
  · intro j hj
    exact writeSeq_apply_lt _ _ _ _ hj
  · exact writeSeq_head _ _ _ _

/-- Effect of the line-emission loop with a constant x offset `d`, in the
default configuration, over in-range text that fits in the buffer: six
vertices per glyph, cursor advanced by the summed truncated advances, old
buffer slots untouched, and glyph number `k` has its left x coordinate
written as (pen position after k glyphs) + scaled bearing + `d`. -/
theorem line_loop_spec (font : vtxt_font) (thp : Int) (d : ℚ) :
    ∀ (text : List Int) (s : VtxtState),
      s.config = 0 →
      (∀ c ∈ text, VTXT_ASCII_FROM ≤ c ∧ c ≤ VTXT_ASCII_TO) →
      s.vertex_count + 6 * text.length ≤ VTXT_MAX_CHAR_IN_BUFFER * 6 →
      (vtxt_line_loop font thp d text s).vertex_count
          = s.vertex_count + 6 * text.length ∧
      (vtxt_line_loop font thp d text s).cursor_x
          = s.cursor_x + vtxt_pen_advance font thp text ∧
      (∀ j, j < s.vertex_count * 4 →
        (vtxt_line_loop font thp d text s).vertex_buffer j = s.vertex_buffer j) ∧
      (∀ k, (hk : k < text.length) →
        (vtxt_line_loop font thp d text s).vertex_buffer ((s.vertex_count + 6 * k) * 4) =
          ((s.cursor_x + vtxt_pen_advance font thp (List.take k text) : Int) : ℚ)
            + (font.glyphs (text.get ⟨k, hk⟩ - VTXT_ASCII_FROM)).offset_x
                * ((thp : ℚ) / (font.font_height_px : ℚ)) + d) := by
  intro text
  induction text with
  | nil =>
    intro s hcfg hchars hcap
    refine ⟨by simp [vtxt_line_loop], ?_, ?_, ?_⟩
    · simp [vtxt_line_loop, vtxt_pen_advance]
    · intro j hj
      simp [vtxt_line_loop]
    · intro k hk
      simp at hk
  | cons c rest ih =>
    intro s hcfg hchars hcap
    have hcap1 : s.vertex_count + 6 ≤ VTXT_MAX_CHAR_IN_BUFFER * 6 := by
      simp only [List.length_cons] at hcap
      omega
    have hguard : ¬(VTXT_MAX_CHAR_IN_BUFFER * 6 < s.vertex_count + 6) := by omega
    have hc := hchars c (List.mem_cons_self _ _)
    obtain ⟨av, acfg, acx, alow, ahead⟩ :=
      append_glyph_spec0 c font thp d s hc.1 hc.2 hcap1 hcfg
    have hloop : vtxt_line_loop font thp d (c :: rest) s =
        vtxt_line_loop font thp d rest (__private_vtxt_append_glyph c font thp d s) := by
      simp only [vtxt_line_loop]
      rw [if_neg hguard]
    have hcaprest : (__private_vtxt_append_glyph c font thp d s).vertex_count
        + 6 * rest.length ≤ VTXT_MAX_CHAR_IN_BUFFER * 6 := by
      rw [av]
      simp only [List.length_cons] at hcap
      omega
    obtain ⟨lv, lcx, llow, lhead⟩ := ih (__private_vtxt_append_glyph c font thp d s) acfg
      (fun c2 h2 => hchars c2 (List.mem_cons_of_mem _ h2)) hcaprest
    have hpen : vtxt_pen_advance font thp (c :: rest) =
        truncToInt ((font.glyphs (c - VTXT_ASCII_FROM)).advance
          * ((thp : ℚ) / (font.font_height_px : ℚ))) + vtxt_pen_advance font thp rest := by
      simp [vtxt_pen_advance]
    refine ⟨?_, ?_, ?_, ?_⟩
    · rw [hloop, lv, av]
      simp only [List.length_cons]
      omega
    · rw [hloop, lcx, acx, hpen]
      omega
    · intro j hj
      have hj' : j < (__private_vtxt_append_glyph c font thp d s).vertex_count * 4 := by
        rw [av]
        omega
      rw [hloop, llow j hj', alow j hj]
    · intro k hk
      cases k with
      | zero =>
        have hslot : (s.vertex_count + 6 * 0) * 4 = s.vertex_count * 4 := by omega
        have hlt : s.vertex_count * 4
            < (__private_vtxt_append_glyph c font thp d s).vertex_count * 4 := by
          rw [av]
          omega
        rw [hloop, hslot, llow _ hlt, ahead]
        simp only [List.take_zero, List.get]
        have hpen0 : vtxt_pen_advance font thp ([] : List Int) = 0 := by
          simp [vtxt_pen_advance]
        rw [hpen0]
        push_cast
        ring
      | succ k2 =>
        have hk2 : k2 < rest.length := by
          simp only [List.length_cons] at hk
          omega
        have hslot : (s.vertex_count + 6 * (k2 + 1)) * 4 =
            ((__private_vtxt_append_glyph c font thp d s).vertex_count + 6 * k2) * 4 := by
          rw [av]
          ring
        have hpent : vtxt_pen_advance font thp (List.take (k2 + 1) (c :: rest)) =
            truncToInt ((font.glyphs (c - VTXT_ASCII_FROM)).advance
              * ((thp : ℚ) / (font.font_height_px : ℚ)))
            + vtxt_pen_advance font thp (List.take k2 rest) := by
          simp [vtxt_pen_advance]
        rw [hloop, hslot, lhead k2 hk2, acx, hpent]
        simp only [List.get_cons_succ]
        push_cast
        ring

/-- Claim C7 (amended): for a single-line in-range string in the default
configuration, `vtxt_append_line_centered` appends every glyph with the
uniform x offset `-(line_length / 2)` relative to its pen position: glyph
`k`'s left edge equals (cursor + truncated pen advance of the first k
glyphs) + scaled bearing − L/2, and the cursor ends at the cursor plus the
summed truncated advances.  The midpoint of the emitted ink extent need
not equal the starting cursor x (see the counterexample): only the
pen-advance run is centered. -/
theorem vtxt_append_line_centered_uniform_shift (font : vtxt_font) (thp : Int)
    (text : List Int) (s : VtxtState)
    (hcfg : s.config = 0)
    (hchars : ∀ c ∈ text, VTXT_ASCII_FROM ≤ c ∧ c ≤ VTXT_ASCII_TO)
    (hcap : s.vertex_count + 6 * text.length ≤ VTXT_MAX_CHAR_IN_BUFFER * 6) :
    (vtxt_append_line_centered font thp text s).cursor_x
        = s.cursor_x + vtxt_pen_advance font thp text ∧
    ∀ k, (hk : k < text.length) →
      (vtxt_append_line_centered font thp text s).vertex_buffer
          ((s.vertex_count + 6 * k) * 4) =
        ((s.cursor_x + vtxt_pen_advance font thp (List.take k text) : Int) : ℚ)
          + (font.glyphs (text.get ⟨k, hk⟩ - VTXT_ASCII_FROM)).offset_x
              * ((thp : ℚ) / (font.font_height_px : ℚ))
          - vtxt_line_length font thp text / 2 := by
  obtain ⟨_, lcx, _, lhead⟩ := line_loop_spec font thp
    (-(vtxt_line_length font thp text / 2)) text s hcfg hchars hcap
  refine ⟨lcx, ?_⟩
  intro k hk
  have h := lhead k hk
  have e : vtxt_append_line_centered font thp text s =
      vtxt_line_loop font thp (-(vtxt_line_length font thp text / 2)) text s := rfl
  rw [e, h]
  ring

/-- Witness for C7's amended theorem: centering "AB" (advances 10, width 2,
zero bearing, scale 1) at cursor x = 100 puts the first glyph's left edge
at 90 = 100 + 0 - 20/2 and ends with the cursor at 120. -/
theorem vtxt_append_line_centered_uniform_shift_witness :
    (vtxt_append_line_centered font_adv10 10 [65, 66] s0c).cursor_x = 120 ∧
    (vtxt_append_line_centered font_adv10 10 [65, 66] s0c).vertex_buffer 0 = 90 := by
  obtain ⟨h1, h2⟩ := vtxt_append_line_centered_uniform_shift font_adv10 10 [65, 66] s0c
    rfl (by decide) (by decide)
  constructor
  · rw [h1]
    norm_num [s0c, clearedState, vtxt_pen_advance, font_adv10, truncToInt, VTXT_ASCII_FROM]
  · have h0 := h2 0 (by norm_num)
    have hslot : ((s0c.vertex_count + 6 * 0) * 4) = 0 := by norm_num [s0c, clearedState]
    rw [hslot] at h0
    rw [h0]
    norm_num [s0c, clearedState, vtxt_pen_advance, vtxt_line_length, font_adv10,
      truncToInt, VTXT_ASCII_FROM]

/-- Counterexample for C7 as stated: centering the two-glyph string "AB"
(advances 10, widths 2, zero bearings, scale 1) at cursor x = 100 emits x
coordinates 90,92 (first glyph) and 100,102 (second glyph), so the
midpoint of the horizontal extent is (90 + 102) / 2 = 96, four pixels away
from the cursor x of 100 — far beyond floating rounding tolerance. -/
theorem vtxt_centered_midpoint_counterexample :
    (vtxt_append_line_centered font_adv10 10 [65, 66] s0c).vertex_count = 12 ∧
    (vtxt_append_line_centered font_adv10 10 [65, 66] s0c).vertex_buffer 0 = 90 ∧
    (vtxt_append_line_centered font_adv10 10 [65, 66] s0c).vertex_buffer 4 = 92 ∧
    (vtxt_append_line_centered font_adv10 10 [65, 66] s0c).vertex_buffer 8 = 90 ∧
    (vtxt_append_line_centered font_adv10 10 [65, 66] s0c).vertex_buffer 12 = 92 ∧
    (vtxt_append_line_centered font_adv10 10 [65, 66] s0c).vertex_buffer 16 = 92 ∧
    (vtxt_append_line_centered font_adv10 10 [65, 66] s0c).vertex_buffer 20 = 90 ∧
    (vtxt_append_line_centered font_adv10 10 [65, 66] s0c).vertex_buffer 24 = 100 ∧
    (vtxt_append_line_centered font_adv10 10 [65, 66] s0c).vertex_buffer 28 = 102 ∧
    (vtxt_append_line_centered font_adv10 10 [65, 66] s0c).vertex_buffer 32 = 100 ∧
    (vtxt_append_line_centered font_adv10 10 [65, 66] s0c).vertex_buffer 36 = 102 ∧
    (vtxt_append_line_centered font_adv10 10 [65, 66] s0c).vertex_buffer 40 = 102 ∧
    (vtxt_append_line_centered font_adv10 10 [65, 66] s0c).vertex_buffer 44 = 100 ∧
    s0c.cursor_x = 100 ∧
    ((90 : ℚ) + 102) / 2 ≠ ((100 : Int) : ℚ) := by
  refine ⟨?_, ?_, ?_, ?_, ?_, ?_, ?_, ?_, ?_, ?_, ?_, ?_, ?_, by decide, by norm_num⟩ <;>
    norm_num [vtxt_append_line_centered, vtxt_line_loop, vtxt_line_length,
      __private_vtxt_append_glyph, s0c, clearedState, font_adv10, truncToInt, writeSeq,
      Function.update, VTXT_ASCII_FROM, VTXT_ASCII_TO, VTXT_MAX_CHAR_IN_BUFFER,
      VTXT_CREATE_INDEX_BUFFER, VTXT_USE_CLIPSPACE_COORDS, VTXT_FLIP_Y]
